import Mathlib

/-
Verification of the tw-geodata core (src/src/geodata.cc): the GEO! binary
loader / validator `geo_data_create`, the ray-casting hit test
`geo_data_hit_test`, and the thin wrapper entry points `GeoData::GeoData`,
`GeoData::Contains` and `geo_data_destroy`.

Modelling conventions:
* A file and the polygon buffer are lists of bytes (`List Nat`, each entry a
  byte value).  C `unsigned int` arithmetic is `Nat` arithmetic with an
  explicit `% 2 ^ 32` exactly where the C code stores into a 32-bit variable.
* Coordinates are rationals.  The C code reinterprets 8 raw bytes as an IEEE
  double; the bit-level decoding is abstracted by an arbitrary decoder
  `dec : List Nat → ℚ` applied to the 8-byte slice, since none of the control
  flow of the program depends on which value a coordinate decodes to.
* The OS-level failure paths of `geo_data_create` (fopen failure -1000, fseek
  failures -1001 and -1002, malloc failure -1007, and the fread failures
  -1004 and -1006 which are unreachable once the length check has passed) are
  outside the byte-list model; everything from the length check on is modelled
  exactly, including the `(unsigned int)ftell` truncation of the file length
  and the fact that `fread(buf, 1, 0, f)` returns 0 and so takes the -1008
  error path.
-/

namespace Geodata

/-- Read one byte of a buffer; reads past the end give 0 (in C such a read is
out of bounds — no theorem below depends on bytes past the end). -/
def byteAt (buf : List Nat) (k : Nat) : Nat := buf.getD k 0

/-- The slice of `n` bytes starting at offset `off`. -/
def readBytes (buf : List Nat) (off n : Nat) : List Nat := (buf.drop off).take n

/-- Read a little-endian 32-bit unsigned integer at offset `off`, as the C
code does with `*(unsigned int *)ptr`. -/
def readU32 (buf : List Nat) (off : Nat) : Nat :=
  byteAt buf off + 256 * (byteAt buf (off + 1) +
    256 * (byteAt buf (off + 2) + 256 * byteAt buf (off + 3)))

/-- Little-endian byte encoding of a 32-bit unsigned integer, used to build
concrete input files. -/
def encodeU32 (n : Nat) : List Nat :=
  [n % 256, n / 256 % 256, n / 65536 % 256, n / 16777216 % 256]

/-- The 4 magic bytes "GEO!". -/
def geoMagic : List Nat := [71, 69, 79, 33]

/-- Embeds `geo_data_coordinate` (a `double lng; double lat;` pair). -/
structure geo_data_coordinate where
  lng : ℚ
  lat : ℚ
deriving DecidableEq

/-- Embeds the `geo_data` struct: the polygon count and the owned byte buffer
holding the polygon records back-to-back. -/
structure geo_data where
  num_polygons : Nat
  polygons : List Nat
deriving DecidableEq

/-- Status written by `geo_data_create` when `fopen` fails (IOError). -/
def statusIOErrorOpen : Int := -1000

/-- Status for a file shorter than 8 bytes (TruncatedHeader). -/
def statusTruncatedHeader : Int := -1003

/-- Status for a wrong 4-byte magic (BadMagic). -/
def statusBadMagic : Int := -1005

/-- Status when the payload `fread` returns 0 (IOError, read failure). -/
def statusReadFailed : Int := -1008

/-- Status when a polygon's 4-byte vertex count does not fit
(TruncatedPolygonHeader). -/
def statusTruncatedPolygonHeader : Int := -1009

/-- Status when a polygon's coordinates do not fit (TruncatedPolygonBody). -/
def statusTruncatedPolygonBody : Int := -1010

/-- The edge-straddling guard of the hit test, literally
`(coordinates[i].lng <= lng && lng < coordinates[j].lng) ||
 (coordinates[j].lng <= lng && lng < coordinates[i].lng)`. -/
def edge_straddles (ci cj : geo_data_coordinate) (lng : ℚ) : Bool :=
  (decide (ci.lng ≤ lng) && decide (lng < cj.lng)) ||
  (decide (cj.lng ≤ lng) && decide (lng < ci.lng))

/-- The interpolated latitude of the edge at the query longitude, literally
`(coordinates[j].lat - coordinates[i].lat) * (lng - coordinates[i].lng) /
 (coordinates[j].lng - coordinates[i].lng) + coordinates[i].lat`. -/
def edge_lat_at (ci cj : geo_data_coordinate) (lng : ℚ) : ℚ :=
  (cj.lat - ci.lat) * (lng - ci.lng) / (cj.lng - ci.lng) + ci.lat

/-- The full per-edge toggle condition of the hit test inner loop. -/
def edge_cross (ci cj : geo_data_coordinate) (lng lat : ℚ) : Bool :=
  edge_straddles ci cj lng && decide (lat < edge_lat_at ci cj lng)

/-- The inner loop of `geo_data_hit_test` over one polygon's decoded
coordinate list: `c` starts at 0 (false); edge `(i, j)` with `j` the previous
index (wrapping to the last index for `i = 0`) toggles `c` when `edge_cross`
holds; the result is the final `c`. -/
def polygon_contains (coordinates : List geo_data_coordinate) (lng lat : ℚ) : Bool :=
  (List.range coordinates.length).foldl
    (fun c i =>
      if edge_cross (coordinates.getD i ⟨0, 0⟩)
          (coordinates.getD (if i = 0 then coordinates.length - 1 else i - 1) ⟨0, 0⟩)
          lng lat
      then !c else c)
    false

/-- Decode `count` consecutive coordinates starting at byte offset `off`,
each one a pair of 8-byte doubles read through the abstract decoder. -/
def readCoords (dec : List Nat → ℚ) (buf : List Nat) :
    Nat → Nat → List geo_data_coordinate
  | _, 0 => []
  | off, k + 1 =>
    ⟨dec (readBytes buf off 8), dec (readBytes buf (off + 8) 8)⟩ ::
      readCoords dec buf (off + 16) k

/-- The outer loop of `geo_data_hit_test`: for each of `n` polygons, read the
32-bit vertex count at `ptr`, run the inner loop, return 1 at the first
containing polygon, else advance `ptr` past the polygon.  The C code stores
the count into `int l`; a count of 2 ^ 31 or more becomes a negative `l`
(two's complement) and the inner loop then runs zero iterations, which the
`if num_coordinates < 2 ^ 31` guard reproduces.  The pointer advance
`polygon_ptr += num_coordinates * sizeof(geo_data_coordinate)` is exact
(pointer arithmetic), hence no `% 2 ^ 32` on it. -/
def hit_scan (dec : List Nat → ℚ) (buf : List Nat) :
    Nat → Nat → ℚ → ℚ → Bool
  | 0, _, _, _ => false
  | n + 1, ptr, lng, lat =>
    let num_coordinates := readU32 buf ptr
    let l := if num_coordinates < 2 ^ 31 then num_coordinates else 0
    if polygon_contains (readCoords dec buf (ptr + 4) l) lng lat then true
    else hit_scan dec buf n (ptr + 4 + 16 * num_coordinates) lng lat

/-- Embeds `geo_data_hit_test`: 0 (false) on a null `data`, otherwise the
polygon scan from the start of the buffer. -/
def geo_data_hit_test (dec : List Nat → ℚ) :
    Option geo_data → ℚ → ℚ → Bool
  | none, _, _ => false
  | some data, lng, lat => hit_scan dec data.polygons data.num_polygons 0 lng lat

/-- Embeds `geo_data_destroy`, reported as the number of heap blocks freed:
nothing on a null `data`, otherwise the polygon buffer and the struct. -/
def geo_data_destroy : Option geo_data → Nat
  | none => 0
  | some _ => 2

/-- The "verify data" loop of `geo_data_create`.  `offset` is the C
`unsigned int offset` (always `< 2 ^ 32`); `ptr` is the 64-bit pointer
`polygon_ptr` as a byte index from the start of the buffer.  Per polygon:
fail -1009 unless the 4-byte count fits, read the count at `ptr`, form
`polygon_len = (4 + 16 * V) % 2 ^ 32` (the C `unsigned int polygon_len`
truncates the 64-bit product on the `+=`), fail -1010 unless
`offset + polygon_len` (32-bit) fits, then advance both cursors. -/
def verifyPolygons (buffer : List Nat) : Nat → Nat → Nat → Except Int Unit
  | 0, _, _ => .ok ()
  | n + 1, offset, ptr =>
    if (offset + 4) % 2 ^ 32 > buffer.length then .error statusTruncatedPolygonHeader
    else
      let num_coordinates := readU32 buffer ptr
      let polygon_len := (4 + 16 * num_coordinates) % 2 ^ 32
      if (offset + polygon_len) % 2 ^ 32 > buffer.length then
        .error statusTruncatedPolygonBody
      else
        verifyPolygons buffer n ((offset + polygon_len) % 2 ^ 32) (ptr + polygon_len)

/-- Embeds `geo_data_create` from the length check on (see the header comment
for the out-of-model OS failure paths).  `len` is the C
`unsigned int len = (unsigned int)ftell(handle)`.  When the polygon count is
0 the C code returns without touching `data->polygons`; the never-read field
is modelled as the empty buffer. -/
def geo_data_create (file : List Nat) : Except Int geo_data :=
  let len := file.length % 2 ^ 32
  if len < 8 then .error statusTruncatedHeader
  else if ¬(byteAt file 0 = 71 ∧ byteAt file 1 = 69 ∧
      byteAt file 2 = 79 ∧ byteAt file 3 = 33) then .error statusBadMagic
  else
    let num_polygons := readU32 file 4
    if num_polygons = 0 then .ok ⟨0, []⟩
    else
      let buffer_len := len - 8
      let buffer := (file.drop 8).take buffer_len
      if buffer_len = 0 then .error statusReadFailed
      else
        match verifyPolygons buffer num_polygons 0 0 with
        | .error e => .error e
        | .ok _ => .ok ⟨num_polygons, buffer⟩

/-- Embeds the `GeoData::GeoData` constructor's effect on the `geo_data_`
field: a null path yields a null `geo_data_` without calling the loader; a
path names file bytes, and a loader failure leaves `geo_data_` null. -/
def GeoData_new (filepath : Option (List Nat)) : Option geo_data :=
  match filepath with
  | none => none
  | some file => (geo_data_create file).toOption

/-- Embeds `GeoData::Contains`: undefined arguments default to -320, an
argument outside [-180, 180] on either axis returns false before the scan,
otherwise the result of `geo_data_hit_test`. -/
def GeoData_Contains (dec : List Nat → ℚ) (g : Option geo_data)
    (arg0 arg1 : Option ℚ) : Bool :=
  let lng := arg0.getD (-320)
  let lat := arg1.getD (-320)
  if lng < -180 ∨ lng > 180 ∨ lat < -180 ∨ lat > 180 then false
  else geo_data_hit_test dec g lng lat

/-- A concrete coordinate decoder (everything decodes to 0), used to
instantiate witness statements. -/
def dec0 : List Nat → ℚ := fun _ => 0

/-
Spec-side (claim-side) definitions, written after the words of the claims and
compared against the source-side definitions above.
-/

/-- The per-edge toggle condition in the words of claim C1: exactly one of
the two endpoint longitudes is >= lng while the other is < lng, and the
interpolated latitude of the edge at lng exceeds lat. -/
def claimed_edge_toggle (ci cj : geo_data_coordinate) (lng lat : ℚ) : Bool :=
  ((decide (ci.lng ≥ lng) && decide (cj.lng < lng)) ||
   (decide (cj.lng ≥ lng) && decide (ci.lng < lng))) &&
  decide (lat < edge_lat_at ci cj lng)

/-- The edge list of a polygon in the words of the spec: vertex `i` paired
with vertex `i - 1`, and vertex 0 paired with the last vertex. -/
def specEdges (coordinates : List geo_data_coordinate) :
    List (geo_data_coordinate × geo_data_coordinate) :=
  (List.range coordinates.length).map
    (fun i => (coordinates.getD i ⟨0, 0⟩,
      coordinates.getD (if i = 0 then coordinates.length - 1 else i - 1) ⟨0, 0⟩))

/-- The number of edges of a polygon crossed by the ray at the query point;
the even-odd rule declares the point inside when this count is odd. -/
def specCrossCount (coordinates : List geo_data_coordinate) (lng lat : ℚ) : Nat :=
  (specEdges coordinates).countP (fun e => edge_cross e.1 e.2 lng lat)

/-- Structural validity of a buffer holding `n` back-to-back polygon records
from offset `ptr` on (exact arithmetic, trailing bytes allowed): each 4-byte
vertex count and all its coordinates fit. -/
def polysFit (buf : List Nat) : Nat → Nat → Bool
  | 0, _ => true
  | n + 1, ptr =>
    decide (ptr + 4 ≤ buf.length) &&
    (decide (ptr + 4 + 16 * readU32 buf ptr ≤ buf.length) &&
     polysFit buf n (ptr + 4 + 16 * readU32 buf ptr))

/-- The decoded polygons of a structurally valid buffer: for each record, the
vertex count at `ptr` followed by that many coordinates. -/
def decodePolys (dec : List Nat → ℚ) (buf : List Nat) :
    Nat → Nat → List (List geo_data_coordinate)
  | 0, _ => []
  | n + 1, ptr =>
    readCoords dec buf (ptr + 4) (readU32 buf ptr) ::
      decodePolys dec buf n (ptr + 4 + 16 * readU32 buf ptr)

/-- Modelled from the spec: the structural validation pass of section 4.1
step 7 in exact (non-overflowing) arithmetic, as claims C3 and C4 demand it.
Returns the final running offset — the sum of the byte extents
`4 + 16 * V` of the `n` polygons — or `none` where the spec requires a
TruncatedPolygonHeader or TruncatedPolygonBody failure.  The source-side
counterpart is `verifyPolygons`, which works in 32-bit arithmetic. -/
def scanExact (buffer : List Nat) : Nat → Nat → Option Nat
  | 0, offset => some offset
  | n + 1, offset =>
    if offset + 4 ≤ buffer.length then
      if offset + 4 + 16 * readU32 buffer offset ≤ buffer.length then
        scanExact buffer n (offset + 4 + 16 * readU32 buffer offset)
      else none
    else none

/-- Modelled from the spec: the structural validation pass of section 4.1
step 7 in exact (non-overflowing) arithmetic together with the error
taxonomy of section 7 — for each polygon in turn, TruncatedPolygonHeader
when the 4-byte vertex count does not fit the remaining payload and
TruncatedPolygonBody when its coordinates do not.  The source-side
counterpart is `verifyPolygons`, which works in 32-bit arithmetic. -/
def scanExactStatus (buffer : List Nat) : Nat → Nat → Except Int Unit
  | 0, _ => .ok ()
  | n + 1, offset =>
    if offset + 4 > buffer.length then .error statusTruncatedPolygonHeader
    else if offset + 4 + 16 * readU32 buffer offset > buffer.length then
      .error statusTruncatedPolygonBody
    else scanExactStatus buffer n (offset + 4 + 16 * readU32 buffer offset)

/-
General lemmas about the hit-test inner loop.
-/

/-- A fold that flips a boolean accumulator once per element satisfying `p`
computes the initial value xor the parity of the count of such elements. -/
theorem foldl_toggle {α : Type} (p : α → Bool) :
    ∀ (L : List α) (b : Bool),
      L.foldl (fun c x => if p x then !c else c) b =
        Bool.xor b (decide (Odd (L.countP p))) := by
  intro L
  induction L with
  | nil =>
    intro b
    simp
  | cons x L ih =>
    intro b
    rw [List.foldl_cons, ih, List.countP_cons]
    by_cases h : p x = true
    · rw [if_pos h, if_pos h]
      have hd : decide (Odd (L.countP p + 1)) = !decide (Odd (L.countP p)) := by
        by_cases ho : Odd (L.countP p)
        · simp [Nat.odd_add_one, ho]
        · simp [Nat.odd_add_one, ho]
      rw [hd]
      cases b <;> cases decide (Odd (L.countP p)) <;> rfl
    · rw [if_neg h, if_neg h]
      simp

/-- The inner loop of the hit test decides the even-odd rule: the final
parity flag is set exactly when the number of crossed edges is odd. -/
theorem polygon_contains_iff_odd (coordinates : List geo_data_coordinate)
    (lng lat : ℚ) :
    polygon_contains coordinates lng lat = true ↔
      Odd (specCrossCount coordinates lng lat) := by
  unfold polygon_contains specCrossCount specEdges
  rw [List.countP_map]
  rw [foldl_toggle (fun i =>
    edge_cross (coordinates.getD i ⟨0, 0⟩)
      (coordinates.getD (if i = 0 then coordinates.length - 1 else i - 1) ⟨0, 0⟩)
      lng lat)]
  simp only [Bool.false_xor, decide_eq_true_eq]
  exact Iff.rfl

/-- C1 (counterexample): the claim states an edge toggles exactly when one
endpoint longitude is >= lng while the other is < lng (plus the interpolated
latitude test).  At the edge from (0, 0) to (1, 2) with query (lng, lat) =
(0, -1) the code toggles the parity flag, but both endpoint longitudes are
>= lng, so the condition claimed by C1 does not hold. -/
theorem edge_toggle_claim_false :
    edge_cross ⟨0, 0⟩ ⟨1, 2⟩ 0 (-1) = true ∧
    claimed_edge_toggle ⟨0, 0⟩ ⟨1, 2⟩ 0 (-1) = false := by
  constructor <;>
    norm_num [edge_cross, claimed_edge_toggle, edge_straddles, edge_lat_at]

/-- C1 (amended): an edge toggles the parity flag exactly when exactly one of
its endpoint longitudes is <= lng while the other is > lng — equivalently,
the two comparisons `endpoint.lng <= lng` disagree — and the latitude of the
edge at lng, obtained by linear interpolation, exceeds lat. -/
theorem edge_cross_iff (ci cj : geo_data_coordinate) (lng lat : ℚ) :
    edge_cross ci cj lng lat = true ↔
      (((ci.lng ≤ lng) ↔ ¬(cj.lng ≤ lng)) ∧ lat < edge_lat_at ci cj lng) := by
  simp only [edge_cross, edge_straddles, Bool.and_eq_true, Bool.or_eq_true,
    decide_eq_true_eq]
  rw [show (lng < cj.lng) ↔ ¬(cj.lng ≤ lng) from not_le.symm]
  rw [show (lng < ci.lng) ↔ ¬(ci.lng ≤ lng) from not_le.symm]
  tauto

/-- C10: whenever the edge-straddling guard of the hit test holds, the two
endpoint longitudes differ, so the divisor of the interpolation is nonzero
and the division — evaluated only under this guard, thanks to the
short-circuit conjunction — is never a division by zero. -/
theorem edge_straddles_divisor_ne_zero (ci cj : geo_data_coordinate) (lng : ℚ)
    (h : edge_straddles ci cj lng = true) : cj.lng - ci.lng ≠ 0 := by
  simp only [edge_straddles, Bool.or_eq_true, Bool.and_eq_true,
    decide_eq_true_eq] at h
  rcases h with ⟨h1, h2⟩ | ⟨h1, h2⟩
  · exact sub_ne_zero.mpr (lt_of_le_of_lt h1 h2).ne'
  · exact sub_ne_zero.mpr (lt_of_le_of_lt h1 h2).ne

/-- C10 (witness): the guard holds for the edge from (0, 0) to (1, 0) at
lng = 0, and there the divisor is indeed nonzero. -/
theorem edge_straddles_divisor_witness :
    edge_straddles ⟨0, 0⟩ ⟨1, 0⟩ 0 = true ∧
    (geo_data_coordinate.mk 1 0).lng - (geo_data_coordinate.mk 0 0).lng ≠ 0 :=
  ⟨by norm_num [edge_straddles],
   edge_straddles_divisor_ne_zero ⟨0, 0⟩ ⟨1, 0⟩ 0 (by norm_num [edge_straddles])⟩

/-- C5: the caller-facing Contains returns false for every polygon set and
every pair of in-model query values with either coordinate outside the
closed interval [-180, 180] — the result does not depend on the polygon set,
so no polygon is scanned, and the same bound is applied to both axes. -/
theorem Contains_out_of_range_false (dec : List Nat → ℚ) (g : Option geo_data)
    (lng lat : ℚ)
    (h : lng < -180 ∨ lng > 180 ∨ lat < -180 ∨ lat > 180) :
    GeoData_Contains dec g (some lng) (some lat) = false := by
  simp only [GeoData_Contains, Option.getD_some]
  rw [if_pos h]

/-- C5 (witness): Contains at lng = 200 (beyond the bound) on the null set
returns false. -/
theorem Contains_out_of_range_witness :
    GeoData_Contains dec0 none (some 200) (some 0) = false :=
  Contains_out_of_range_false dec0 none 200 0 (Or.inr (Or.inl (by norm_num)))

/-- C9: a null construction path yields a null polygon-set handle rather than
a failure; the hit test on a null set returns false for every query, and
destruction of a null set frees nothing (a harmless no-op). -/
theorem null_path_safe :
    GeoData_new none = none ∧
    (∀ (dec : List Nat → ℚ) (lng lat : ℚ),
        geo_data_hit_test dec none lng lat = false) ∧
    geo_data_destroy none = 0 :=
  ⟨rfl, fun _ _ _ => rfl, rfl⟩

/-- C3: the loader accepts the 12-byte file "GEO!", N = 1, V = 2 ^ 28, even
though in exact arithmetic the polygon needs 4 + 16 * 2 ^ 28 = 4 + 2 ^ 32
bytes and only 4 are present: the 32-bit `polygon_len` wraps to 4.  The
spec-modelled exact validation (`scanExact`) rejects the same payload, as the
claim requires. -/
theorem overflow_truncation_accepts :
    geo_data_create (geoMagic ++ encodeU32 1 ++ encodeU32 (2 ^ 28)) =
      .ok ⟨1, encodeU32 (2 ^ 28)⟩ ∧
    scanExact (encodeU32 (2 ^ 28)) 1 0 = none :=
  ⟨rfl, rfl⟩

/-- C7: a polygon with vertex count 0 passes its structural-validation step
whenever its own 4-byte count field fits (it is never a reason for
rejection); a concrete file with one 0-vertex polygon loads; and in the hit
test the inner loop of an empty coordinate list runs zero iterations leaving
the parity even, so such a polygon contains no point. -/
theorem zero_vertex_polygon_ok :
    (∀ (buf : List Nat) (n offset ptr : Nat),
        (offset + 4) % 2 ^ 32 ≤ buf.length → readU32 buf ptr = 0 →
        verifyPolygons buf (n + 1) offset ptr =
          verifyPolygons buf n ((offset + 4) % 2 ^ 32) (ptr + 4)) ∧
    geo_data_create (geoMagic ++ encodeU32 1 ++ encodeU32 0) =
      .ok ⟨1, encodeU32 0⟩ ∧
    (∀ lng lat : ℚ, polygon_contains [] lng lat = false) ∧
    (∀ (dec : List Nat → ℚ) (lng lat : ℚ),
        geo_data_hit_test dec (some ⟨1, encodeU32 0⟩) lng lat = false) := by
  refine ⟨?_, rfl, fun _ _ => rfl, fun _ _ _ => rfl⟩
  intro buf n offset ptr hoff hV
  simp only [verifyPolygons, hV]
  norm_num
  have hc : ¬ buf.length < (offset + 4) % 4294967296 := by omega
  rw [if_neg hc, if_neg hc]

/-- C7 (witness): with the buffer holding exactly one 0-vertex polygon, the
validation step of that polygon succeeds and moves to the next record. -/
theorem zero_vertex_polygon_witness :
    verifyPolygons (encodeU32 0) 1 0 0 =
      verifyPolygons (encodeU32 0) 0 ((0 + 4) % 2 ^ 32) (0 + 4) :=
  zero_vertex_polygon_ok.1 (encodeU32 0) 0 0 0 (by decide) (by decide)

/-- C6: a file of the valid magic and polygon count 0 — with any trailing
bytes, none of which are read — loads successfully into the empty polygon
set, and the hit test on that set returns false for every query. -/
theorem empty_set_loads (extra : List Nat) (h : 8 + extra.length < 2 ^ 32) :
    geo_data_create (geoMagic ++ encodeU32 0 ++ extra) = .ok ⟨0, []⟩ ∧
    (∀ (dec : List Nat → ℚ) (lng lat : ℚ),
        geo_data_hit_test dec (some ⟨0, []⟩) lng lat = false) := by
  refine ⟨?_, fun _ _ _ => rfl⟩
  have hlen : (geoMagic ++ encodeU32 0 ++ extra).length % 2 ^ 32 =
      8 + extra.length := by
    simp only [geoMagic, encodeU32, List.append_assoc, List.length_append,
      List.length_cons, List.length_nil]
    omega
  simp only [geo_data_create, hlen]
  rw [if_neg (by omega)]
  rw [if_neg (not_not_intro ⟨rfl, rfl, rfl, rfl⟩)]
  rw [if_pos (show readU32 (geoMagic ++ encodeU32 0 ++ extra) 4 = 0 from rfl)]

/-- C6 (witness): the bare 8-byte file (no trailing bytes) loads to the empty
set, whose hit test is constantly false. -/
theorem empty_set_loads_witness :
    geo_data_create (geoMagic ++ encodeU32 0 ++ []) = .ok ⟨0, []⟩ ∧
    (∀ (dec : List Nat → ℚ) (lng lat : ℚ),
        geo_data_hit_test dec (some ⟨0, []⟩) lng lat = false) :=
  empty_set_loads [] (by decide)

/-- The polygon scan loop agrees with the even-odd rule over the decoded
polygon list on every structurally valid buffer: it returns true exactly when
some decoded polygon has an odd crossing count. -/
theorem hit_scan_iff_exists_odd (dec : List Nat → ℚ) (buf : List Nat)
    (lng lat : ℚ) :
    ∀ (n ptr : Nat), buf.length < 2 ^ 32 → polysFit buf n ptr = true →
      (hit_scan dec buf n ptr lng lat = true ↔
        ∃ p ∈ decodePolys dec buf n ptr, Odd (specCrossCount p lng lat)) := by
  intro n
  induction n with
  | zero =>
    intro ptr _ _
    simp [hit_scan, decodePolys]
  | succ m ih =>
    intro ptr hlen hfit
    simp only [polysFit, Bool.and_eq_true, decide_eq_true_eq] at hfit
    obtain ⟨h1, h2, h3⟩ := hfit
    have hV : readU32 buf ptr < 2 ^ 31 := by omega
    simp only [hit_scan, decodePolys]
    rw [if_pos hV]
    by_cases hc :
        polygon_contains (readCoords dec buf (ptr + 4) (readU32 buf ptr)) lng lat = true
    · rw [if_pos hc]
      exact iff_of_true rfl
        ⟨_, List.mem_cons_self _ _, (polygon_contains_iff_odd _ _ _).mp hc⟩
    · rw [if_neg hc]
      rw [ih (ptr + 4 + 16 * readU32 buf ptr) hlen h3]
      constructor
      · rintro ⟨p, hp, hodd⟩
        exact ⟨p, List.mem_cons_of_mem _ hp, hodd⟩
      · rintro ⟨p, hp, hodd⟩
        rcases List.mem_cons.mp hp with rfl | hp2
        · exact absurd ((polygon_contains_iff_odd _ _ _).mpr hodd) hc
        · exact ⟨p, hp2, hodd⟩

/-- C2: on a validly structured polygon set (every declared record fits the
buffer, whose length is below 2 ^ 32 as every loaded buffer's is), the hit
test returns true if and only if some polygon of the set, scanned in storage
order, has an odd number of ray-edge crossings — the even-odd rule with OR
semantics across polygons. -/
theorem geo_data_hit_test_even_odd (dec : List Nat → ℚ) (N : Nat)
    (buf : List Nat) (lng lat : ℚ)
    (hlen : buf.length < 2 ^ 32) (hfit : polysFit buf N 0 = true) :
    geo_data_hit_test dec (some ⟨N, buf⟩) lng lat = true ↔
      ∃ p ∈ decodePolys dec buf N 0, Odd (specCrossCount p lng lat) :=
  hit_scan_iff_exists_odd dec buf lng lat N 0 hlen hfit

/-- C2 (witness): a set of one single-vertex polygon (all bytes zero, so the
vertex decodes to (0, 0) under the zero decoder) is valid, and at the query
(5, 5) the hit test and the even-odd rule agree. -/
theorem geo_data_hit_test_even_odd_witness :
    ((encodeU32 1 ++ List.replicate 16 0).length < 2 ^ 32 ∧
     polysFit (encodeU32 1 ++ List.replicate 16 0) 1 0 = true) ∧
    (geo_data_hit_test dec0 (some ⟨1, encodeU32 1 ++ List.replicate 16 0⟩) 5 5 = true ↔
      ∃ p ∈ decodePolys dec0 (encodeU32 1 ++ List.replicate 16 0) 1 0,
        Odd (specCrossCount p 5 5)) :=
  ⟨⟨by decide, by decide⟩,
   geo_data_hit_test_even_odd dec0 1 (encodeU32 1 ++ List.replicate 16 0) 5 5
     (by decide) (by decide)⟩

/-- Shape of the loader on a well-formed header: for a file built from the
magic, an encoded count N below 2 ^ 32 and a payload short enough for the
32-bit length not to wrap, the loader reduces to the N = 0 shortcut, the
empty-payload read failure, or the verification loop over the payload. -/
theorem create_header_ok (N : Nat) (p : List Nat) (hN : N < 2 ^ 32)
    (hp : 8 + p.length < 2 ^ 32) :
    geo_data_create (geoMagic ++ encodeU32 N ++ p) =
      (if N = 0 then .ok ⟨0, []⟩
       else if p.length = 0 then .error statusReadFailed
       else
         match verifyPolygons p N 0 0 with
         | .error e => .error e
         | .ok _ => .ok ⟨N, p⟩) := by
  have hlen : (geoMagic ++ encodeU32 N ++ p).length % 2 ^ 32 = 8 + p.length := by
    simp only [geoMagic, encodeU32, List.append_assoc, List.length_append,
      List.length_cons, List.length_nil]
    omega
  have hread : readU32 (geoMagic ++ encodeU32 N ++ p) 4 =
      N % 256 + 256 * (N / 256 % 256 +
        256 * (N / 65536 % 256 + 256 * (N / 16777216 % 256))) := rfl
  have hreadN : readU32 (geoMagic ++ encodeU32 N ++ p) 4 = N := by
    rw [hread]; omega
  have hdrop : (geoMagic ++ encodeU32 N ++ p).drop 8 = p := rfl
  simp only [geo_data_create, hlen, hreadN, hdrop]
  rw [if_neg (by omega)]
  rw [if_neg (not_not_intro ⟨rfl, rfl, rfl, rfl⟩)]
  by_cases h0 : N = 0
  · rw [if_pos h0, if_pos h0]
  · rw [if_neg h0, if_neg h0]
    have hbl : 8 + p.length - 8 = p.length := by omega
    rw [hbl, List.take_length]

/-- The final offset of the exact validation never exceeds the buffer
length: each polygon's extent was checked to fit before being added. -/
theorem scanExact_le (p : List Nat) :
    ∀ (n off0 off : Nat), off0 ≤ p.length →
      scanExact p n off0 = some off → off ≤ p.length := by
  intro n
  induction n with
  | zero =>
    intro off0 off h he
    simp only [scanExact, Option.some.injEq] at he
    omega
  | succ m ih =>
    intro off0 off h he
    simp only [scanExact] at he
    by_cases h1 : off0 + 4 ≤ p.length
    · rw [if_pos h1] at he
      by_cases h2 : off0 + 4 + 16 * readU32 p off0 ≤ p.length
      · rw [if_pos h2] at he
        exact ih _ off h2 he
      · rw [if_neg h2] at he
        exact absurd he (by simp)
    · rw [if_neg h1] at he
      exact absurd he (by simp)

/-- On payloads short enough and with all scanned vertex counts small enough
that no 32-bit truncation occurs, the source verification loop succeeds
exactly when the spec's exact-arithmetic validation does. -/
theorem verify_iff_scan (p : List Nat) (hlen : p.length < 2 ^ 31)
    (hV : ∀ k, k ≤ p.length → readU32 p k < 2 ^ 27) :
    ∀ (n offset : Nat), offset ≤ p.length →
      (verifyPolygons p n offset offset = .ok () ↔
        (scanExact p n offset).isSome = true) := by
  intro n
  induction n with
  | zero =>
    intro offset _
    simp [verifyPolygons, scanExact]
  | succ m ih =>
    intro offset hoff
    have hVo := hV offset hoff
    have hmod4 : (offset + 4) % 2 ^ 32 = offset + 4 :=
      Nat.mod_eq_of_lt (by omega)
    have hpl : (4 + 16 * readU32 p offset) % 2 ^ 32 =
        4 + 16 * readU32 p offset :=
      Nat.mod_eq_of_lt (by omega)
    have hassoc : offset + (4 + 16 * readU32 p offset) =
        offset + 4 + 16 * readU32 p offset := by omega
    have hmodsum : (offset + 4 + 16 * readU32 p offset) % 2 ^ 32 =
        offset + 4 + 16 * readU32 p offset :=
      Nat.mod_eq_of_lt (by omega)
    simp only [verifyPolygons, scanExact, hmod4, hpl, hassoc, hmodsum]
    by_cases h1 : offset + 4 ≤ p.length
    · rw [if_neg (by omega), if_pos h1]
      by_cases h2 : offset + 4 + 16 * readU32 p offset ≤ p.length
      · rw [if_neg (by omega), if_pos h2]
        exact ih (offset + 4 + 16 * readU32 p offset) h2
      · rw [if_pos (by omega), if_neg h2]
        simp
    · rw [if_pos (by omega), if_neg h1]
      simp

/-- On payloads short enough and with all scanned vertex counts small enough
that no 32-bit truncation occurs, the source verification loop returns
exactly the status of the spec's exact-arithmetic validation, at every
polygon position. -/
theorem verify_eq_scanStatus (p : List Nat) (hlen : p.length < 2 ^ 31)
    (hV : ∀ k, k ≤ p.length → readU32 p k < 2 ^ 27) :
    ∀ (n offset : Nat), offset ≤ p.length →
      verifyPolygons p n offset offset = scanExactStatus p n offset := by
  intro n
  induction n with
  | zero =>
    intro offset _
    rfl
  | succ m ih =>
    intro offset hoff
    have hVo := hV offset hoff
    have hmod4 : (offset + 4) % 2 ^ 32 = offset + 4 :=
      Nat.mod_eq_of_lt (by omega)
    have hpl : (4 + 16 * readU32 p offset) % 2 ^ 32 =
        4 + 16 * readU32 p offset :=
      Nat.mod_eq_of_lt (by omega)
    have hassoc : offset + (4 + 16 * readU32 p offset) =
        offset + 4 + 16 * readU32 p offset := by omega
    have hmodsum : (offset + 4 + 16 * readU32 p offset) % 2 ^ 32 =
        offset + 4 + 16 * readU32 p offset :=
      Nat.mod_eq_of_lt (by omega)
    simp only [verifyPolygons, scanExactStatus, hmod4, hpl, hassoc, hmodsum]
    by_cases h1 : offset + 4 ≤ p.length
    · have hn1 : ¬(offset + 4 > p.length) := by omega
      simp only [if_neg hn1]
      by_cases h2 : offset + 4 + 16 * readU32 p offset ≤ p.length
      · have hn2 : ¬(offset + 4 + 16 * readU32 p offset > p.length) := by omega
        simp only [if_neg hn2]
        exact ih _ h2
      · have hp2 : offset + 4 + 16 * readU32 p offset > p.length := by omega
        simp only [if_pos hp2]
    · have hp1 : offset + 4 > p.length := by omega
      simp only [if_pos hp1]

/-- C4 (counterexample): the 13-byte file of magic, N = 1, V = 0 and one
trailing payload byte is accepted by the loader although the polygon byte
extents sum to 4 while the payload buffer is 5 bytes long; the claim states
any such mismatch is rejected. -/
theorem trailing_byte_accepted :
    geo_data_create (geoMagic ++ encodeU32 1 ++ (encodeU32 0 ++ [0])) =
      .ok ⟨1, encodeU32 0 ++ [0]⟩ ∧
    scanExact (encodeU32 0 ++ [0]) 1 0 = some 4 ∧
    (encodeU32 0 ++ [0]).length = 5 :=
  ⟨rfl, rfl, rfl⟩

/-- C4 (amended): in the regime where the 32-bit arithmetic cannot wrap
(payload under 2 ^ 31 bytes, scanned vertex counts under 2 ^ 27), the loader
accepts a file exactly when N = 0 or every declared polygon fits within the
remaining payload in sequence; on acceptance the sum of the polygon byte
extents is at most — not necessarily equal to — the payload length, a
payload longer than the polygons consume being accepted. -/
theorem accepted_iff_polygons_fit (N : Nat) (p : List Nat)
    (hN : N < 2 ^ 32) (hlen : p.length < 2 ^ 31)
    (hV : ∀ k, k ≤ p.length → readU32 p k < 2 ^ 27) :
    ((∃ d, geo_data_create (geoMagic ++ encodeU32 N ++ p) = .ok d) ↔
      (N = 0 ∨ (scanExact p N 0).isSome = true)) ∧
    (∀ off, scanExact p N 0 = some off → off ≤ p.length) := by
  constructor
  · rw [create_header_ok N p hN (by omega)]
    by_cases h0 : N = 0
    · rw [if_pos h0]
      simp [h0]
    · rw [if_neg h0]
      by_cases hpe : p.length = 0
      · rw [if_pos hpe]
        obtain ⟨m, rfl⟩ := Nat.exists_eq_succ_of_ne_zero h0
        simp [scanExact, hpe, h0]
      · rw [if_neg hpe]
        have hiff := verify_iff_scan p hlen hV N 0 (Nat.zero_le _)
        cases hv : verifyPolygons p N 0 0 with
        | error e =>
          rw [hv] at hiff
          simp only [hv]
          simp at hiff
          simp [h0, hiff]
        | ok u =>
          cases u
          rw [hv] at hiff
          simp only [hv]
          simp at hiff
          simp [h0, hiff]
  · intro off h
    exact scanExact_le p N 0 off (Nat.zero_le _) h

/-- C4 (witness): for the one-polygon payload of five zero bytes (V = 0 plus
a trailing byte) the acceptance equivalence and the extent bound hold. -/
theorem accepted_iff_polygons_fit_witness :
    ((∃ d, geo_data_create (geoMagic ++ encodeU32 1 ++ [0, 0, 0, 0, 0]) = .ok d) ↔
      (1 = 0 ∨ (scanExact [0, 0, 0, 0, 0] 1 0).isSome = true)) ∧
    (∀ off, scanExact [0, 0, 0, 0, 0] 1 0 = some off →
      off ≤ ([0, 0, 0, 0, 0] : List Nat).length) :=
  accepted_iff_polygons_fit 1 [0, 0, 0, 0, 0] (by decide) (by decide) (by decide)

/-- C8 (counterexample): for the 8-byte file of magic and N = 1, the first
polygon's 4-byte vertex-count field does not fit in the (empty) remaining
payload, yet the loader reports the read-failure status -1008 instead of
TruncatedPolygonHeader. -/
theorem count_field_missing_not_header_error :
    geo_data_create (geoMagic ++ encodeU32 1) = .error statusReadFailed ∧
    statusReadFailed ≠ statusTruncatedPolygonHeader :=
  ⟨rfl, by decide⟩

/-- C8 (amended): a file shorter than 8 bytes fails with TruncatedHeader; a
file of length at least 8 (and below 2 ^ 32, where the 32-bit length cast
does not interfere) whose first 4 bytes are not G, E, O, ! fails with
BadMagic; a polygon — at any position in the scan, in the no-overflow
regime of C4 — whose 4-byte vertex-count field does not fit in the nonempty
remaining payload fails with TruncatedPolygonHeader (the hypothesis that the
exact validation's first failure is a missing count field says precisely
that the earlier polygons fit and this one's count does not), while a
positive polygon count with an empty payload fails the payload read with the
distinct IOError value -1008; and no two failure kinds share an error
value. -/
theorem load_error_taxonomy :
    (∀ file : List Nat, file.length < 8 →
        geo_data_create file = .error statusTruncatedHeader) ∧
    (∀ file : List Nat, 8 ≤ file.length → file.length < 2 ^ 32 →
        ¬(byteAt file 0 = 71 ∧ byteAt file 1 = 69 ∧
          byteAt file 2 = 79 ∧ byteAt file 3 = 33) →
        geo_data_create file = .error statusBadMagic) ∧
    (∀ (N : Nat) (p : List Nat), 0 < N → N < 2 ^ 32 → p ≠ [] →
        p.length < 2 ^ 31 → (∀ k, k ≤ p.length → readU32 p k < 2 ^ 27) →
        scanExactStatus p N 0 = .error statusTruncatedPolygonHeader →
        geo_data_create (geoMagic ++ encodeU32 N ++ p) =
          .error statusTruncatedPolygonHeader) ∧
    (∀ N : Nat, 0 < N → N < 2 ^ 32 →
        geo_data_create (geoMagic ++ encodeU32 N) = .error statusReadFailed) ∧
    [statusIOErrorOpen, statusTruncatedHeader, statusBadMagic, statusReadFailed,
      statusTruncatedPolygonHeader, statusTruncatedPolygonBody].Pairwise (· ≠ ·) := by
  refine ⟨?_, ?_, ?_, ?_, by decide⟩
  · intro file h
    simp only [geo_data_create]
    rw [Nat.mod_eq_of_lt (by omega : file.length < 2 ^ 32)]
    rw [if_pos h]
  · intro file h8 h32 hm
    simp only [geo_data_create]
    rw [Nat.mod_eq_of_lt h32]
    rw [if_neg (by omega)]
    rw [if_pos hm]
  · intro N p hpos hN hpne hlen hV hscan
    rw [create_header_ok N p hN (by omega)]
    rw [if_neg (by omega : ¬N = 0)]
    rw [if_neg (fun h => hpne (List.length_eq_zero.mp h))]
    rw [verify_eq_scanStatus p hlen hV N 0 (Nat.zero_le _), hscan]
  · intro N hpos hN
    have h := create_header_ok N [] hN (by norm_num)
    rw [List.append_nil] at h
    rw [h]
    rw [if_neg (by omega : ¬N = 0)]
    rw [if_pos (show ([] : List Nat).length = 0 from rfl)]

/-- C8 (witness): a 1-byte file fails with TruncatedHeader; a file with a
valid header, N = 2 and a 6-byte payload — whose first polygon (V = 0)
consumes 4 bytes, leaving a nonempty 2-byte payload too small for the second
polygon's count field — fails with TruncatedPolygonHeader; a file with a
corrupted magic fails with BadMagic. -/
theorem load_error_taxonomy_witness :
    geo_data_create [0] = .error statusTruncatedHeader ∧
    geo_data_create (geoMagic ++ encodeU32 2 ++ [0, 0, 0, 0, 0, 0]) =
      .error statusTruncatedPolygonHeader ∧
    geo_data_create [88, 69, 79, 33, 1, 0, 0, 0] = .error statusBadMagic :=
  ⟨load_error_taxonomy.1 [0] (by decide),
   load_error_taxonomy.2.2.1 2 [0, 0, 0, 0, 0, 0] (by decide) (by decide)
     (by decide) (by decide) (by decide) rfl,
   load_error_taxonomy.2.1 [88, 69, 79, 33, 1, 0, 0, 0] (by decide) (by decide)
     (by decide)⟩

end Geodata
